import Mathlib

/-!
# Polling facade of node-openzwave-shared (src/openzwave-polling.cc)

A shallow embedding of the seven polling methods exported to JavaScript:
GetPollInterval, SetPollInterval, EnablePoll, DisablePoll, IsPolled,
SetPollIntensity and GetPollIntensity.

Each method reads its arguments as JavaScript numbers (doubles) and stores
them in uint8_t locals; the arguments are modelled as natural numbers.  The
conversion keeps the low byte of an argument below 2^31 and gives 0 from 2^31
on, where the double is out of the range of the integer conversion.  The
methods are thin wrappers over
get_node_info and OpenZWave::Manager, neither of which is part of the source
file; both are modelled from the specification (data model of section 3,
operation table of section 4.2), and marked so below.
-/

namespace OZW

/-! ## Data model -/

/-- Modelled from the spec: the ValueDescriptor of section 3 (the source only
uses OpenZWave::ValueID through GetCommandClassId, GetInstance, GetIndex and
the Manager calls).  The field inst is the spec field instance. -/
structure ValueDescriptor where
  commandClassId : Nat
  inst : Nat
  index : Nat
  isPolled : Bool
  pollIntensity : Nat
deriving DecidableEq, Repr

/-- Modelled from the spec: the NodeInfo of section 3, a node id and the
ordered sequence of its value descriptors (the declaration is in
openzwave.hpp, which is not part of the source file). -/
structure NodeInfo where
  nodeId : Nat
  values : List ValueDescriptor
deriving DecidableEq, Repr

/-- The state the methods act on: the node registry behind get_node_info and
the global poll interval kept by the OpenZWave manager. -/
structure State where
  nodes : List NodeInfo
  pollInterval : Nat
deriving DecidableEq, Repr

/-- What a method hands back to JavaScript: NanReturnUndefined, or
NanReturnValue of a Boolean or an Integer. -/
inductive JsValue where
  | undefined : JsValue
  | boolean : Bool → JsValue
  | integer : Nat → JsValue
deriving DecidableEq, Repr

/-- Narrowing of a non-negative integer argument, a double, into a uint8_t
local (lines 50, 65-66, 88-89, 112-115, 138-142, 166-169).  The double is
converted through a signed 32-bit integer whose low byte is kept: below 2^31
that is the argument modulo 2^8; from 2^31 on the conversion is out of range
(undefined in C++) and the compiled method gets the low byte of the overflow
value 0x80000000, which is 0. -/
def toUint8 (x : Nat) : Nat := if x < 2147483648 then x % 256 else 0

/-- Narrowing of an integer result into the uint8 local of GetPollIntensity
(line 177): an integer conversion, the value modulo 2^8. -/
def truncUint8 (x : Nat) : Nat := x % 256

/-- Narrowing into the uint32 local of GetPollInterval (line 30). -/
def toUint32 (x : Nat) : Nat := x % 4294967296

/-! ## Collaborators that are not in the source file -/

/-- Modelled from the spec: get_node_info is defined elsewhere in the
repository; section 4.1 gives find_node(nodeId), which returns the node
entry keyed by nodeId or not found.  The registry is scanned in order and
the first entry with that id is the entry of the key. -/
def get_node_info : List NodeInfo → Nat → Option NodeInfo
  | [], _ => none
  | n :: ns, nodeid => if n.nodeId = nodeid then some n else get_node_info ns nodeid

/-- Modelled from the spec: get_node_info returns a pointer, and the Manager
calls made on the values reached through it change the registry in place.
This writes the value sequence back into the entry get_node_info returns. -/
def store_node_values : List NodeInfo → Nat → List ValueDescriptor → List NodeInfo
  | [], _, _ => []
  | n :: ns, nodeid, vs =>
    if n.nodeId = nodeid then { n with values := vs } :: ns
    else n :: store_node_values ns nodeid vs

namespace Manager

/-- Modelled from the spec: OpenZWave::Manager::GetPollInterval, reads the
global interval (section 4.2). -/
def GetPollInterval (st : State) : Nat := st.pollInterval

/-- Modelled from the spec: OpenZWave::Manager::SetPollInterval, writes the
global interval (section 4.2); the second argument of the call (false) has no
counterpart in the spec. -/
def SetPollInterval (st : State) (milliseconds : Nat) : State :=
  { st with pollInterval := milliseconds }

/-- Modelled from the spec: OpenZWave::Manager::EnablePoll on a located value,
sets isPolled = true with the given intensity (section 4.2). -/
def EnablePoll (v : ValueDescriptor) (intensity : Nat) : ValueDescriptor :=
  { v with isPolled := true, pollIntensity := intensity }

/-- Modelled from the spec: OpenZWave::Manager::DisablePoll on a located
value, sets isPolled = false (section 4.2). -/
def DisablePoll (v : ValueDescriptor) : ValueDescriptor :=
  { v with isPolled := false }

/-- Modelled from the spec: OpenZWave::Manager::isPolled, the current
isPolled of a located value (section 4.2). -/
def isPolled (v : ValueDescriptor) : Bool := v.isPolled

/-- Modelled from the spec: OpenZWave::Manager::SetPollIntensity on a located
value, sets pollIntensity (section 4.2). -/
def SetPollIntensity (v : ValueDescriptor) (intensity : Nat) : ValueDescriptor :=
  { v with pollIntensity := intensity }

/-- Modelled from the spec: OpenZWave::Manager::GetPollIntensity, the current
pollIntensity of a located value (section 4.2). -/
def GetPollIntensity (v : ValueDescriptor) : Nat := v.pollIntensity

end Manager

/-! ## The methods of openzwave-polling.cc -/

/-- GetPollInterval, lines 26-32. -/
def GetPollInterval (st : State) : JsValue :=
  let i := toUint32 (Manager.GetPollInterval st)
  JsValue.integer i

/-- SetPollInterval, lines 46-53. -/
def SetPollInterval (st : State) (arg0 : Nat) : State × JsValue :=
  let intervalMillisecs := toUint8 arg0
  (Manager.SetPollInterval st intervalMillisecs, JsValue.undefined)

/-- The loop of EnablePoll, lines 71-76: the first value of the command class
gets Manager::EnablePoll(value, 1), then break. -/
def EnablePoll.loop (comclass : Nat) : List ValueDescriptor → List ValueDescriptor
  | [] => []
  | v :: vs =>
    if v.commandClassId = comclass then Manager.EnablePoll v 1 :: vs
    else v :: EnablePoll.loop comclass vs

/-- EnablePoll, lines 60-80. -/
def EnablePoll (st : State) (arg0 arg1 : Nat) : State × JsValue :=
  let nodeid := toUint8 arg0
  let comclass := toUint8 arg1
  match get_node_info st.nodes nodeid with
  | some node =>
    ({ st with nodes := store_node_values st.nodes nodeid (EnablePoll.loop comclass node.values) },
      JsValue.undefined)
  | none => (st, JsValue.undefined)

/-- The loop of DisablePoll, lines 94-99: the first value of the command class
gets Manager::DisablePoll(value), then break. -/
def DisablePoll.loop (comclass : Nat) : List ValueDescriptor → List ValueDescriptor
  | [] => []
  | v :: vs =>
    if v.commandClassId = comclass then Manager.DisablePoll v :: vs
    else v :: DisablePoll.loop comclass vs

/-- DisablePoll, lines 83-103. -/
def DisablePoll (st : State) (arg0 arg1 : Nat) : State × JsValue :=
  let nodeid := toUint8 arg0
  let comclass := toUint8 arg1
  match get_node_info st.nodes nodeid with
  | some node =>
    ({ st with nodes := store_node_values st.nodes nodeid (DisablePoll.loop comclass node.values) },
      JsValue.undefined)
  | none => (st, JsValue.undefined)

/-- The loop of IsPolled, lines 121-126: the first value matching class,
instance and index answers; falling off the end is NanReturnUndefined. -/
def IsPolled.loop (comclass inst index : Nat) : List ValueDescriptor → JsValue
  | [] => JsValue.undefined
  | v :: vs =>
    if v.commandClassId = comclass ∧ v.inst = inst ∧ v.index = index then
      JsValue.boolean (Manager.isPolled v)
    else IsPolled.loop comclass inst index vs

/-- IsPolled, lines 107-130. -/
def IsPolled (st : State) (arg0 arg1 arg2 arg3 : Nat) : JsValue :=
  let nodeid := toUint8 arg0
  let comclass := toUint8 arg1
  let inst := toUint8 arg2
  let index := toUint8 arg3
  match get_node_info st.nodes nodeid with
  | some node => IsPolled.loop comclass inst index node.values
  | none => JsValue.undefined

/-- The loop of SetPollIntensity, lines 148-154: the first value matching
class, instance and index gets Manager::SetPollIntensity, then the method
returns. -/
def SetPollIntensity.loop (comclass inst index intensity : Nat) :
    List ValueDescriptor → List ValueDescriptor
  | [] => []
  | v :: vs =>
    if v.commandClassId = comclass ∧ v.inst = inst ∧ v.index = index then
      Manager.SetPollIntensity v intensity :: vs
    else v :: SetPollIntensity.loop comclass inst index intensity vs

/-- SetPollIntensity, lines 133-157. -/
def SetPollIntensity (st : State) (arg0 arg1 arg2 arg3 arg4 : Nat) : State × JsValue :=
  let nodeid := toUint8 arg0
  let comclass := toUint8 arg1
  let inst := toUint8 arg2
  let index := toUint8 arg3
  let intensity := toUint8 arg4
  match get_node_info st.nodes nodeid with
  | some node =>
    let values := SetPollIntensity.loop comclass inst index intensity node.values
    ({ st with nodes := store_node_values st.nodes nodeid values }, JsValue.undefined)
  | none => (st, JsValue.undefined)

/-- The loop of GetPollIntensity, lines 175-180: the first value matching
class, instance and index answers with its intensity held in a uint8 local. -/
def GetPollIntensity.loop (comclass inst index : Nat) : List ValueDescriptor → JsValue
  | [] => JsValue.undefined
  | v :: vs =>
    if v.commandClassId = comclass ∧ v.inst = inst ∧ v.index = index then
      JsValue.integer (truncUint8 (Manager.GetPollIntensity v))
    else GetPollIntensity.loop comclass inst index vs

/-- GetPollIntensity, lines 161-184. -/
def GetPollIntensity (st : State) (arg0 arg1 arg2 arg3 : Nat) : JsValue :=
  let nodeid := toUint8 arg0
  let comclass := toUint8 arg1
  let inst := toUint8 arg2
  let index := toUint8 arg3
  match get_node_info st.nodes nodeid with
  | some node => GetPollIntensity.loop comclass inst index node.values
  | none => JsValue.undefined

/-! ## Scenario states -/

/-- The scenario of section 8: node 5 with the values (0x25, 1, 0) and
(0x25, 2, 0), both unpolled. -/
def node5 : NodeInfo :=
  { nodeId := 5,
    values := [ { commandClassId := 0x25, inst := 1, index := 0, isPolled := false, pollIntensity := 1 },
                { commandClassId := 0x25, inst := 2, index := 0, isPolled := false, pollIntensity := 1 } ] }

/-- A registry holding node 5 only, with a global interval of 30000 ms. -/
def scenario : State := { nodes := [node5], pollInterval := 30000 }

/-- Node 5 again, with the second value of class 0x25 already polled. -/
def node5b : NodeInfo :=
  { nodeId := 5,
    values := [ { commandClassId := 0x25, inst := 1, index := 0, isPolled := false, pollIntensity := 1 },
                { commandClassId := 0x25, inst := 2, index := 0, isPolled := true, pollIntensity := 1 } ] }

/-- A registry holding that node 5 only. -/
def scenario2 : State := { nodes := [node5b], pollInterval := 30000 }

/-- An EnablePoll or DisablePoll call with its two arguments. -/
inductive PollCall where
  | enable : Nat → Nat → PollCall
  | disable : Nat → Nat → PollCall
deriving DecidableEq, Repr

/-- The state after a sequence of EnablePoll and DisablePoll calls. -/
def runCalls : State → List PollCall → State
  | st, [] => st
  | st, PollCall.enable N C :: cs => runCalls (EnablePoll st N C).1 cs
  | st, PollCall.disable N C :: cs => runCalls (DisablePoll st N C).1 cs

/-! ## Proof devices: the two loop shapes -/

/-- Rewrite the first element passing the test, leave the rest. -/
def modifyFirst {α : Type} (p : α → Prop) [DecidablePred p] (f : α → α) : List α → List α
  | [] => []
  | a :: as => if p a then f a :: as else a :: modifyFirst p f as

/-- Answer from the first element passing the test, or the default. -/
def answerFirst {α β : Type} (p : α → Prop) [DecidablePred p] (g : α → β) (d : β) : List α → β
  | [] => d
  | a :: as => if p a then g a else answerFirst p g d as

/-- The exact-match test of lines 122, 149 and 176. -/
def exactMatch (comclass inst index : Nat) (v : ValueDescriptor) : Prop :=
  v.commandClassId = comclass ∧ v.inst = inst ∧ v.index = index

instance (comclass inst index : Nat) : DecidablePred (exactMatch comclass inst index) :=
  fun v => by unfold exactMatch; exact inferInstance

/-! ## Lemmas on the registry lookup and write-back -/

theorem toUint8_of_lt_two_pow_31 {x : Nat} (h : x < 2147483648) : toUint8 x = x % 256 := by
  simp [toUint8, h]

theorem toUint8_of_le_two_pow_31 {x : Nat} (h : 2147483648 ≤ x) : toUint8 x = 0 := by
  simp [toUint8, Nat.not_lt.mpr h]

theorem toUint8_of_lt {x : Nat} (h : x < 256) : toUint8 x = x := by
  rw [toUint8_of_lt_two_pow_31 (by omega)]
  exact Nat.mod_eq_of_lt h

theorem toUint8_lt (x : Nat) : toUint8 x < 256 := by
  unfold toUint8
  split
  · exact Nat.mod_lt x (by decide)
  · decide

theorem toUint8_idem (x : Nat) : toUint8 (toUint8 x) = toUint8 x :=
  toUint8_of_lt (toUint8_lt x)

theorem truncUint8_toUint8 (x : Nat) : truncUint8 (toUint8 x) = toUint8 x :=
  Nat.mod_eq_of_lt (toUint8_lt x)

theorem get_node_info_id {nodes : List NodeInfo} {nodeid : Nat} {n : NodeInfo}
    (h : get_node_info nodes nodeid = some n) : n.nodeId = nodeid := by
  induction nodes with
  | nil => simp [get_node_info] at h
  | cons m ms ih =>
    by_cases hm : m.nodeId = nodeid
    · simp [get_node_info, hm] at h
      rw [← h]; exact hm
    · simp [get_node_info, hm] at h
      exact ih h

theorem get_node_info_mem {nodes : List NodeInfo} {nodeid : Nat} {n : NodeInfo}
    (h : get_node_info nodes nodeid = some n) : n ∈ nodes := by
  induction nodes with
  | nil => simp [get_node_info] at h
  | cons m ms ih =>
    by_cases hm : m.nodeId = nodeid
    · simp [get_node_info, hm] at h
      simp [h]
    · simp [get_node_info, hm] at h
      exact List.mem_cons_of_mem _ (ih h)

theorem get_node_info_eq_none {nodes : List NodeInfo} {nodeid : Nat}
    (h : ∀ n ∈ nodes, n.nodeId ≠ nodeid) : get_node_info nodes nodeid = none := by
  induction nodes with
  | nil => rfl
  | cons m ms ih =>
    have hm : m.nodeId ≠ nodeid := h m (List.mem_cons_self _ _)
    simp only [get_node_info, hm, if_false]
    exact ih (fun n hn => h n (List.mem_cons_of_mem _ hn))

theorem get_store_same {nodes : List NodeInfo} {nodeid : Nat} {n : NodeInfo}
    (vs : List ValueDescriptor) (h : get_node_info nodes nodeid = some n) :
    get_node_info (store_node_values nodes nodeid vs) nodeid = some { n with values := vs } := by
  induction nodes with
  | nil => simp [get_node_info] at h
  | cons m ms ih =>
    by_cases hm : m.nodeId = nodeid
    · simp [get_node_info, hm] at h
      subst h
      simp [store_node_values, get_node_info, hm]
    · simp [get_node_info, hm] at h
      simp [store_node_values, get_node_info, hm, ih h]

theorem get_store_other (nodes : List NodeInfo) {nodeid other : Nat}
    (vs : List ValueDescriptor) (h : other ≠ nodeid) :
    get_node_info (store_node_values nodes nodeid vs) other = get_node_info nodes other := by
  induction nodes with
  | nil => rfl
  | cons m ms ih =>
    by_cases hm : m.nodeId = nodeid
    · have ho : ¬ m.nodeId = other := fun e => h (e.symm.trans hm)
      simp [store_node_values, get_node_info, hm, ho, Ne.symm h]
    · simp [store_node_values, get_node_info, hm, ih]

theorem store_self {nodes : List NodeInfo} {nodeid : Nat} {n : NodeInfo}
    (h : get_node_info nodes nodeid = some n) :
    store_node_values nodes nodeid n.values = nodes := by
  induction nodes with
  | nil => rfl
  | cons m ms ih =>
    by_cases hm : m.nodeId = nodeid
    · simp [get_node_info, hm] at h
      subst h
      subst hm
      simp [store_node_values]
    · simp [get_node_info, hm] at h
      simp [store_node_values, hm, ih h]

theorem store_nodeIds (nodes : List NodeInfo) (nodeid : Nat) (vs : List ValueDescriptor) :
    (store_node_values nodes nodeid vs).map NodeInfo.nodeId = nodes.map NodeInfo.nodeId := by
  induction nodes with
  | nil => rfl
  | cons m ms ih =>
    by_cases hm : m.nodeId = nodeid
    · simp [store_node_values, hm]
    · simp [store_node_values, hm, ih]

/-- The write-back changes the entry get_node_info returns and no other. -/
theorem store_split {nodes : List NodeInfo} {nodeid : Nat} {n : NodeInfo}
    (h : get_node_info nodes nodeid = some n) :
    ∃ ns1 ns2, nodes = ns1 ++ n :: ns2 ∧ (∀ m ∈ ns1, m.nodeId ≠ nodeid) ∧
      ∀ vs, store_node_values nodes nodeid vs = ns1 ++ { n with values := vs } :: ns2 := by
  induction nodes with
  | nil => simp [get_node_info] at h
  | cons m ms ih =>
    by_cases hm : m.nodeId = nodeid
    · simp [get_node_info, hm] at h
      subst h
      exact ⟨[], ms, by simp, by simp, fun vs => by simp [store_node_values, hm]⟩
    · simp [get_node_info, hm] at h
      obtain ⟨ns1, ns2, h1, h2, h3⟩ := ih h
      refine ⟨m :: ns1, ns2, by simp [h1], ?_, fun vs => by simp [store_node_values, hm, h3]⟩
      intro k hk
      rcases List.mem_cons.mp hk with rfl | hk
      · exact hm
      · exact h2 k hk

/-! ## The two loop shapes

Every loop of the file either rewrites the first value that passes a test and
stops, or answers from the first value that passes a test.  The loops are
shown equal to these two shapes, and the shapes carry the list reasoning. -/

theorem EnablePoll_loop_eq (comclass : Nat) (l : List ValueDescriptor) :
    EnablePoll.loop comclass l
      = modifyFirst (fun v => v.commandClassId = comclass) (fun v => Manager.EnablePoll v 1) l := by
  induction l with
  | nil => rfl
  | cons a as ih => simp [EnablePoll.loop, modifyFirst, ih]

theorem DisablePoll_loop_eq (comclass : Nat) (l : List ValueDescriptor) :
    DisablePoll.loop comclass l
      = modifyFirst (fun v => v.commandClassId = comclass) Manager.DisablePoll l := by
  induction l with
  | nil => rfl
  | cons a as ih => simp [DisablePoll.loop, modifyFirst, ih]

theorem SetPollIntensity_loop_eq (comclass inst index intensity : Nat) (l : List ValueDescriptor) :
    SetPollIntensity.loop comclass inst index intensity l
      = modifyFirst (exactMatch comclass inst index)
          (fun v => Manager.SetPollIntensity v intensity) l := by
  induction l with
  | nil => rfl
  | cons a as ih => simp [SetPollIntensity.loop, modifyFirst, exactMatch, ih]

theorem IsPolled_loop_eq (comclass inst index : Nat) (l : List ValueDescriptor) :
    IsPolled.loop comclass inst index l
      = answerFirst (exactMatch comclass inst index)
          (fun v => JsValue.boolean (Manager.isPolled v)) JsValue.undefined l := by
  induction l with
  | nil => rfl
  | cons a as ih => simp [IsPolled.loop, answerFirst, exactMatch, ih]

theorem GetPollIntensity_loop_eq (comclass inst index : Nat) (l : List ValueDescriptor) :
    GetPollIntensity.loop comclass inst index l
      = answerFirst (exactMatch comclass inst index)
          (fun v => JsValue.integer (truncUint8 (Manager.GetPollIntensity v))) JsValue.undefined l := by
  induction l with
  | nil => rfl
  | cons a as ih => simp [GetPollIntensity.loop, answerFirst, exactMatch, ih]

section Shapes

variable {α β : Type} (p q : α → Prop) [DecidablePred p] [DecidablePred q]

theorem modifyFirst_split (f : α → α) (pre : List α) (v : α) (post : List α)
    (hpre : ∀ w ∈ pre, ¬ p w) (hv : p v) :
    modifyFirst p f (pre ++ v :: post) = pre ++ f v :: post := by
  induction pre with
  | nil => simp [modifyFirst, hv]
  | cons a as ih =>
    have ha : ¬ p a := hpre a (List.mem_cons_self _ _)
    simp [modifyFirst, ha, ih (fun w hw => hpre w (List.mem_cons_of_mem _ hw))]

theorem modifyFirst_none (f : α → α) (l : List α) (h : ∀ w ∈ l, ¬ p w) :
    modifyFirst p f l = l := by
  induction l with
  | nil => rfl
  | cons a as ih =>
    have ha : ¬ p a := h a (List.mem_cons_self _ _)
    simp [modifyFirst, ha, ih (fun w hw => h w (List.mem_cons_of_mem _ hw))]

theorem answerFirst_split (g : α → β) (d : β) (pre : List α) (v : α) (post : List α)
    (hpre : ∀ w ∈ pre, ¬ p w) (hv : p v) :
    answerFirst p g d (pre ++ v :: post) = g v := by
  induction pre with
  | nil => simp [answerFirst, hv]
  | cons a as ih =>
    have ha : ¬ p a := hpre a (List.mem_cons_self _ _)
    simp [answerFirst, ha, ih (fun w hw => hpre w (List.mem_cons_of_mem _ hw))]

theorem answerFirst_none (g : α → β) (d : β) (l : List α) (h : ∀ w ∈ l, ¬ p w) :
    answerFirst p g d l = d := by
  induction l with
  | nil => rfl
  | cons a as ih =>
    have ha : ¬ p a := h a (List.mem_cons_self _ _)
    simp [answerFirst, ha, ih (fun w hw => h w (List.mem_cons_of_mem _ hw))]

/-- A list with an element passing the test splits at the first such element. -/
theorem exists_first (l : List α) (h : ∃ v ∈ l, p v) :
    ∃ pre v post, l = pre ++ v :: post ∧ (∀ w ∈ pre, ¬ p w) ∧ p v := by
  induction l with
  | nil => obtain ⟨v, hv, _⟩ := h; simp at hv
  | cons a as ih =>
    by_cases ha : p a
    · exact ⟨[], a, as, rfl, by simp, ha⟩
    · obtain ⟨v, hv, hpv⟩ := h
      have hin : v ∈ as := by
        rcases List.mem_cons.mp hv with rfl | hv
        · exact absurd hpv ha
        · exact hv
      obtain ⟨pre, w, post, h1, h2, h3⟩ := ih ⟨v, hin, hpv⟩
      refine ⟨a :: pre, w, post, by simp [h1], ?_, h3⟩
      intro k hk
      rcases List.mem_cons.mp hk with rfl | hk
      · exact ha
      · exact h2 k hk

/-- A rewrite aimed at one test does not disturb the answer for a disjoint
test, when the rewrite keeps what the second test looks at. -/
theorem answerFirst_modifyFirst_disjoint (f : α → α) (g : α → β) (d : β) (l : List α)
    (hdisj : ∀ v, p v → ¬ q v) (hkeep : ∀ v, q (f v) ↔ q v) :
    answerFirst q g d (modifyFirst p f l) = answerFirst q g d l := by
  induction l with
  | nil => rfl
  | cons a as ih =>
    by_cases ha : p a
    · have hq : ¬ q a := hdisj a ha
      have hq2 : ¬ q (f a) := fun h => hq ((hkeep a).mp h)
      simp [modifyFirst, answerFirst, ha, hq, hq2]
    · by_cases hq : q a
      · simp [modifyFirst, answerFirst, ha, hq]
      · simp [modifyFirst, answerFirst, ha, hq, ih]

/-- A rewrite that keeps a projection keeps the projected list. -/
theorem modifyFirst_map {γ : Type} (f : α → α) (proj : α → γ) (l : List α)
    (hkeep : ∀ v, proj (f v) = proj v) :
    (modifyFirst p f l).map proj = l.map proj := by
  induction l with
  | nil => rfl
  | cons a as ih =>
    by_cases ha : p a
    · simp [modifyFirst, ha, hkeep]
    · simp [modifyFirst, ha, ih]

end Shapes

/-! ## The methods on a located node -/

theorem EnablePoll_get {st : State} {n : NodeInfo} (N C : Nat)
    (h : get_node_info st.nodes (toUint8 N) = some n) :
    get_node_info (EnablePoll st N C).1.nodes (toUint8 N)
      = some { n with values := EnablePoll.loop (toUint8 C) n.values } := by
  simp only [EnablePoll, h]
  exact get_store_same _ h

theorem DisablePoll_get {st : State} {n : NodeInfo} (N C : Nat)
    (h : get_node_info st.nodes (toUint8 N) = some n) :
    get_node_info (DisablePoll st N C).1.nodes (toUint8 N)
      = some { n with values := DisablePoll.loop (toUint8 C) n.values } := by
  simp only [DisablePoll, h]
  exact get_store_same _ h

theorem SetPollIntensity_get {st : State} {n : NodeInfo} (N C i x k : Nat)
    (h : get_node_info st.nodes (toUint8 N) = some n) :
    get_node_info (SetPollIntensity st N C i x k).1.nodes (toUint8 N)
      = some { n with values :=
          SetPollIntensity.loop (toUint8 C) (toUint8 i) (toUint8 x) (toUint8 k) n.values } := by
  simp only [SetPollIntensity, h]
  exact get_store_same _ h

theorem SetPollIntensity_get_other (st : State) (N C i x k M : Nat)
    (h : toUint8 M ≠ toUint8 N) :
    get_node_info (SetPollIntensity st N C i x k).1.nodes (toUint8 M)
      = get_node_info st.nodes (toUint8 M) := by
  cases hn : get_node_info st.nodes (toUint8 N) with
  | none => simp only [SetPollIntensity, hn]
  | some n =>
    simp only [SetPollIntensity, hn]
    exact get_store_other _ _ h

theorem IsPolled_of_get {st : State} {n : NodeInfo} (N C i x : Nat)
    (h : get_node_info st.nodes (toUint8 N) = some n) :
    IsPolled st N C i x = IsPolled.loop (toUint8 C) (toUint8 i) (toUint8 x) n.values := by
  simp only [IsPolled, h]

theorem GetPollIntensity_of_get {st : State} {n : NodeInfo} (N C i x : Nat)
    (h : get_node_info st.nodes (toUint8 N) = some n) :
    GetPollIntensity st N C i x
      = GetPollIntensity.loop (toUint8 C) (toUint8 i) (toUint8 x) n.values := by
  simp only [GetPollIntensity, h]

/-- A value before the first value of a class does not pass the exact-match
test for that class. -/
theorem not_exactMatch_of_class {pre : List ValueDescriptor} {comclass : Nat} (i x : Nat)
    (h : ∀ w ∈ pre, w.commandClassId ≠ comclass) :
    ∀ w ∈ pre, ¬ exactMatch comclass i x w :=
  fun w hw hm => h w hw hm.1

/-! ## Claims -/

/-- C1, as stated, fails: in the scenario of section 8 the second value of
class 0x25 on node 5 is a value of the class, yet after EnablePoll(5, 0x25)
IsPolled(5, 0x25, 2, 0) is false, not true. -/
theorem C1_counterexample :
    ¬ ∀ (st : State) (N C : Nat) (n : NodeInfo) (V : ValueDescriptor),
        get_node_info st.nodes N = some n → V ∈ n.values → V.commandClassId = C →
        IsPolled (EnablePoll st N C).1 N C V.inst V.index = JsValue.boolean true := by
  intro h
  have h2 := h scenario 5 0x25 node5
    { commandClassId := 0x25, inst := 2, index := 0, isPolled := false, pollIntensity := 1 }
    (by decide) (by decide) rfl
  revert h2
  decide

/-- C1, amended: when the call locates node n for nodeId N, and V is the FIRST
value of n whose command class is the class C of the call (V.instance and
V.index being 8-bit), then after EnablePoll(N, C) the query
IsPolled(N, C, V.instance, V.index) returns true. -/
theorem C1_EnablePoll_then_IsPolled_first (st : State) (N C : Nat) (n : NodeInfo)
    (pre post : List ValueDescriptor) (V : ValueDescriptor)
    (hnode : get_node_info st.nodes (toUint8 N) = some n)
    (hvals : n.values = pre ++ V :: post)
    (hfirst : ∀ w ∈ pre, w.commandClassId ≠ toUint8 C)
    (hclass : V.commandClassId = toUint8 C)
    (hinst : V.inst < 256) (hindex : V.index < 256) :
    IsPolled (EnablePoll st N C).1 N C V.inst V.index = JsValue.boolean true := by
  rw [IsPolled_of_get N C V.inst V.index (EnablePoll_get N C hnode)]
  simp only [IsPolled_loop_eq, EnablePoll_loop_eq, hvals]
  rw [modifyFirst_split _ _ pre V post hfirst hclass]
  rw [answerFirst_split _ _ _ pre _ post (not_exactMatch_of_class _ _ hfirst)]
  · rfl
  · exact ⟨hclass, (toUint8_of_lt hinst).symm, (toUint8_of_lt hindex).symm⟩

/-- Witness of C1 amended: node 5 of the scenario, first value (0x25, 1, 0). -/
theorem C1_EnablePoll_then_IsPolled_first_witness :
    IsPolled (EnablePoll scenario 5 0x25).1 5 0x25 1 0 = JsValue.boolean true :=
  C1_EnablePoll_then_IsPolled_first scenario 5 0x25 node5 []
    [{ commandClassId := 0x25, inst := 2, index := 0, isPolled := false, pollIntensity := 1 }]
    { commandClassId := 0x25, inst := 1, index := 0, isPolled := false, pollIntensity := 1 }
    (by decide) (by decide) (by decide) (by decide) (by decide) (by decide)

/-- C2, as stated, fails: on node 5 with the second value of class 0x25
already polled, EnablePoll(5, 0x25) then DisablePoll(5, 0x25) touch the first
value only, and IsPolled(5, 0x25, 2, 0) is still true. -/
theorem C2_counterexample :
    ¬ ∀ (st : State) (N C : Nat) (n : NodeInfo) (V : ValueDescriptor),
        get_node_info st.nodes N = some n → V ∈ n.values → V.commandClassId = C →
        IsPolled (DisablePoll (EnablePoll st N C).1 N C).1 N C V.inst V.index
          = JsValue.boolean false := by
  intro h
  have h2 := h scenario2 5 0x25 node5b
    { commandClassId := 0x25, inst := 2, index := 0, isPolled := true, pollIntensity := 1 }
    (by decide) (by decide) rfl
  revert h2
  decide

/-- C2, amended: when the call locates node n for nodeId N, and V is the FIRST
value of n whose command class is the class C of the call (V.instance and
V.index being 8-bit), then after EnablePoll(N, C) followed by DisablePoll(N, C)
the query IsPolled(N, C, V.instance, V.index) returns false. -/
theorem C2_EnablePoll_DisablePoll_then_IsPolled_first (st : State) (N C : Nat) (n : NodeInfo)
    (pre post : List ValueDescriptor) (V : ValueDescriptor)
    (hnode : get_node_info st.nodes (toUint8 N) = some n)
    (hvals : n.values = pre ++ V :: post)
    (hfirst : ∀ w ∈ pre, w.commandClassId ≠ toUint8 C)
    (hclass : V.commandClassId = toUint8 C)
    (hinst : V.inst < 256) (hindex : V.index < 256) :
    IsPolled (DisablePoll (EnablePoll st N C).1 N C).1 N C V.inst V.index
      = JsValue.boolean false := by
  rw [IsPolled_of_get N C V.inst V.index (DisablePoll_get N C (EnablePoll_get N C hnode))]
  simp only [IsPolled_loop_eq, EnablePoll_loop_eq, DisablePoll_loop_eq, hvals]
  rw [modifyFirst_split _ _ pre V post hfirst hclass]
  rw [modifyFirst_split _ _ pre _ post hfirst (by exact hclass)]
  rw [answerFirst_split _ _ _ pre _ post (not_exactMatch_of_class _ _ hfirst)]
  · rfl
  · exact ⟨hclass, (toUint8_of_lt hinst).symm, (toUint8_of_lt hindex).symm⟩

/-- Witness of C2 amended: node 5 of the scenario, first value (0x25, 1, 0). -/
theorem C2_EnablePoll_DisablePoll_then_IsPolled_first_witness :
    IsPolled (DisablePoll (EnablePoll scenario 5 0x25).1 5 0x25).1 5 0x25 1 0
      = JsValue.boolean false :=
  C2_EnablePoll_DisablePoll_then_IsPolled_first scenario 5 0x25 node5 []
    [{ commandClassId := 0x25, inst := 2, index := 0, isPolled := false, pollIntensity := 1 }]
    { commandClassId := 0x25, inst := 1, index := 0, isPolled := false, pollIntensity := 1 }
    (by decide) (by decide) (by decide) (by decide) (by decide) (by decide)

/-- C6: when the call locates node n for nodeId N and V is the first value of
n whose command class is the class C of the call, EnablePoll(N, C) rewrites
that one value (isPolled true, intensity 1) and DisablePoll(N, C) rewrites
that one value (isPolled false); the values before it, every value after it
(later values of class C included), every other node and the interval are
kept as they were.  Witness of section 8: node 5 with (0x25,1,0) and
(0x25,2,0), both unpolled; after EnablePoll(5, 0x25), IsPolled(5,0x25,1,0) is
true and IsPolled(5,0x25,2,0) is false. -/
theorem C6_only_first_of_class_toggled (st : State) (N C : Nat) (n : NodeInfo)
    (pre post : List ValueDescriptor) (V : ValueDescriptor)
    (hnode : get_node_info st.nodes (toUint8 N) = some n)
    (hvals : n.values = pre ++ V :: post)
    (hfirst : ∀ w ∈ pre, w.commandClassId ≠ toUint8 C)
    (hclass : V.commandClassId = toUint8 C) :
    (∃ ns1 ns2, st.nodes = ns1 ++ n :: ns2 ∧ (∀ m ∈ ns1, m.nodeId ≠ toUint8 N) ∧
      (EnablePoll st N C).1 =
        { nodes := ns1 ++ { n with values :=
            pre ++ { V with isPolled := true, pollIntensity := 1 } :: post } :: ns2,
          pollInterval := st.pollInterval } ∧
      (DisablePoll st N C).1 =
        { nodes := ns1 ++ { n with values := pre ++ { V with isPolled := false } :: post } :: ns2,
          pollInterval := st.pollInterval }) ∧
    (IsPolled scenario 5 0x25 1 0 = JsValue.boolean false ∧
      IsPolled scenario 5 0x25 2 0 = JsValue.boolean false ∧
      IsPolled (EnablePoll scenario 5 0x25).1 5 0x25 1 0 = JsValue.boolean true ∧
      IsPolled (EnablePoll scenario 5 0x25).1 5 0x25 2 0 = JsValue.boolean false) := by
  refine ⟨?_, by decide⟩
  obtain ⟨ns1, ns2, h1, h2, h3⟩ := store_split hnode
  refine ⟨ns1, ns2, h1, h2, ?_, ?_⟩
  · simp only [EnablePoll, hnode, h3, EnablePoll_loop_eq, hvals]
    rw [modifyFirst_split _ _ pre V post hfirst hclass]
    rfl
  · simp only [DisablePoll, hnode, h3, DisablePoll_loop_eq, hvals]
    rw [modifyFirst_split _ _ pre V post hfirst hclass]
    rfl

/-- Witness of C6: node 5 of the scenario, whose two values are both of class
0x25; the second value is in the part that is kept. -/
theorem C6_only_first_of_class_toggled_witness :
    ∃ ns1 ns2, scenario.nodes = ns1 ++ node5 :: ns2 ∧ (∀ m ∈ ns1, m.nodeId ≠ toUint8 5) ∧
      (EnablePoll scenario 5 0x25).1 =
        { nodes := ns1 ++ { nodeId := 5, values :=
            [ { commandClassId := 0x25, inst := 1, index := 0, isPolled := true, pollIntensity := 1 },
              { commandClassId := 0x25, inst := 2, index := 0, isPolled := false, pollIntensity := 1 } ] }
            :: ns2,
          pollInterval := 30000 } ∧
      (DisablePoll scenario 5 0x25).1 =
        { nodes := ns1 ++ { nodeId := 5, values :=
            [ { commandClassId := 0x25, inst := 1, index := 0, isPolled := false, pollIntensity := 1 },
              { commandClassId := 0x25, inst := 2, index := 0, isPolled := false, pollIntensity := 1 } ] }
            :: ns2,
          pollInterval := 30000 } :=
  (C6_only_first_of_class_toggled scenario 5 0x25 node5 []
    [{ commandClassId := 0x25, inst := 2, index := 0, isPolled := false, pollIntensity := 1 }]
    { commandClassId := 0x25, inst := 1, index := 0, isPolled := false, pollIntensity := 1 }
    (by decide) (by decide) (by decide) (by decide)).1

/-- The core of C7 on one state. -/
theorem EnablePoll_first {st : State} {n : NodeInfo} (N C : Nat)
    {pre post : List ValueDescriptor} {V : ValueDescriptor}
    (hnode : get_node_info st.nodes (toUint8 N) = some n)
    (hvals : n.values = pre ++ V :: post)
    (hfirst : ∀ w ∈ pre, w.commandClassId ≠ toUint8 C)
    (hclass : V.commandClassId = toUint8 C)
    (hinst : V.inst < 256) (hindex : V.index < 256) :
    get_node_info (EnablePoll st N C).1.nodes (toUint8 N)
        = some { n with values := pre ++ { V with isPolled := true, pollIntensity := 1 } :: post } ∧
      GetPollIntensity (EnablePoll st N C).1 N C V.inst V.index = JsValue.integer 1 := by
  have hget : get_node_info (EnablePoll st N C).1.nodes (toUint8 N)
      = some { n with values := pre ++ { V with isPolled := true, pollIntensity := 1 } :: post } := by
    rw [EnablePoll_get N C hnode, EnablePoll_loop_eq, hvals,
      modifyFirst_split _ _ pre V post hfirst hclass]
    rfl
  refine ⟨hget, ?_⟩
  rw [GetPollIntensity_of_get N C V.inst V.index hget, GetPollIntensity_loop_eq]
  rw [answerFirst_split _ _ _ pre _ post (not_exactMatch_of_class _ _ hfirst)]
  · rfl
  · exact ⟨hclass, (toUint8_of_lt hinst).symm, (toUint8_of_lt hindex).symm⟩

/-- C7: when the call locates node n for nodeId N and V is the first value of
n whose command class is the class C of the call (V.instance and V.index being
8-bit), then after EnablePoll(N, C) the value at the place of V has isPolled
true and pollIntensity 1, and GetPollIntensity(N, C, V.instance, V.index)
returns 1; this is so whatever pollIntensity V had, and also when any
intensity k is first set on V with SetPollIntensity. -/
theorem C7_EnablePoll_sets_intensity_one (st : State) (N C k : Nat) (n : NodeInfo)
    (pre post : List ValueDescriptor) (V : ValueDescriptor)
    (hnode : get_node_info st.nodes (toUint8 N) = some n)
    (hvals : n.values = pre ++ V :: post)
    (hfirst : ∀ w ∈ pre, w.commandClassId ≠ toUint8 C)
    (hclass : V.commandClassId = toUint8 C)
    (hinst : V.inst < 256) (hindex : V.index < 256) :
    (∃ V1, get_node_info (EnablePoll st N C).1.nodes (toUint8 N)
          = some { n with values := pre ++ V1 :: post } ∧
        V1.commandClassId = V.commandClassId ∧ V1.inst = V.inst ∧ V1.index = V.index ∧
        V1.isPolled = true ∧ V1.pollIntensity = 1) ∧
      GetPollIntensity (EnablePoll st N C).1 N C V.inst V.index = JsValue.integer 1 ∧
      GetPollIntensity (EnablePoll (SetPollIntensity st N C V.inst V.index k).1 N C).1
        N C V.inst V.index = JsValue.integer 1 := by
  have h1 := EnablePoll_first N C hnode hvals hfirst hclass hinst hindex
  refine ⟨⟨_, h1.1, rfl, rfl, rfl, rfl, rfl⟩, h1.2, ?_⟩
  have hset := SetPollIntensity_get N C V.inst V.index k hnode
  rw [SetPollIntensity_loop_eq, hvals,
    modifyFirst_split _ _ pre V post (not_exactMatch_of_class _ _ hfirst)
      ⟨hclass, (toUint8_of_lt hinst).symm, (toUint8_of_lt hindex).symm⟩] at hset
  exact (EnablePoll_first N C hset rfl hfirst hclass hinst hindex).2

/-- Witness of C7: node 5 of the scenario, first value (0x25, 1, 0), after an
intensity of 7 was set on it. -/
theorem C7_EnablePoll_sets_intensity_one_witness :
    GetPollIntensity (EnablePoll (SetPollIntensity scenario 5 0x25 1 0 7).1 5 0x25).1
      5 0x25 1 0 = JsValue.integer 1 :=
  (C7_EnablePoll_sets_intensity_one scenario 5 0x25 7 node5 []
    [{ commandClassId := 0x25, inst := 2, index := 0, isPolled := false, pollIntensity := 1 }]
    { commandClassId := 0x25, inst := 1, index := 0, isPolled := false, pollIntensity := 1 }
    (by decide) (by decide) (by decide) (by decide) (by decide) (by decide)).2.2

/-- SetPollIntensity then GetPollIntensity on the same arguments, when the
arguments locate a value. -/
theorem GetPollIntensity_SetPollIntensity_same {st : State} {n : NodeInfo} (N C i x k : Nat)
    (hnode : get_node_info st.nodes (toUint8 N) = some n)
    (hex : ∃ v ∈ n.values, exactMatch (toUint8 C) (toUint8 i) (toUint8 x) v) :
    GetPollIntensity (SetPollIntensity st N C i x k).1 N C i x = JsValue.integer (toUint8 k) := by
  obtain ⟨pre, w, post, hsplit, hpre, hw⟩ := exists_first _ n.values hex
  rw [GetPollIntensity_of_get N C i x (SetPollIntensity_get N C i x k hnode)]
  simp only [GetPollIntensity_loop_eq, SetPollIntensity_loop_eq, hsplit]
  rw [modifyFirst_split _ _ pre w post hpre hw]
  rw [answerFirst_split _ _ _ pre _ post hpre (by exact hw)]
  simp [Manager.GetPollIntensity, Manager.SetPollIntensity, truncUint8_toUint8]

/-- C4: when the call locates node n for nodeId N and n has a value with the
triple (C, i, x) of the call, then for every intensity k up to 255 (1..255
included) SetPollIntensity(N, C, i, x, k) followed by GetPollIntensity(N, C,
i, x) returns k; nothing is assumed on the intensity the value had before,
nor on how many values of n carry the triple. -/
theorem C4_SetPollIntensity_then_GetPollIntensity (st : State) (N C i x k : Nat)
    (n : NodeInfo) (v : ValueDescriptor)
    (hnode : get_node_info st.nodes (toUint8 N) = some n)
    (hv : v ∈ n.values)
    (hclass : v.commandClassId = toUint8 C) (hinst : v.inst = toUint8 i)
    (hindex : v.index = toUint8 x)
    (hk : k ≤ 255) :
    GetPollIntensity (SetPollIntensity st N C i x k).1 N C i x = JsValue.integer k := by
  rw [GetPollIntensity_SetPollIntensity_same N C i x k hnode ⟨v, hv, hclass, hinst, hindex⟩]
  rw [toUint8_of_lt (by omega)]

/-- Witness of C4: node 5 with the triple (0x25, 2, 0) twice, intensities 4
and 9 set before; intensity 200 is set and read back. -/
theorem C4_SetPollIntensity_then_GetPollIntensity_witness :
    GetPollIntensity (SetPollIntensity
      { nodes := [{ nodeId := 5, values :=
          [ { commandClassId := 0x25, inst := 2, index := 0, isPolled := false, pollIntensity := 4 },
            { commandClassId := 0x25, inst := 2, index := 0, isPolled := true, pollIntensity := 9 } ] }],
        pollInterval := 30000 } 5 0x25 2 0 200).1 5 0x25 2 0 = JsValue.integer 200 :=
  C4_SetPollIntensity_then_GetPollIntensity _ 5 0x25 2 0 200
    { nodeId := 5, values :=
      [ { commandClassId := 0x25, inst := 2, index := 0, isPolled := false, pollIntensity := 4 },
        { commandClassId := 0x25, inst := 2, index := 0, isPolled := true, pollIntensity := 9 } ] }
    { commandClassId := 0x25, inst := 2, index := 0, isPolled := true, pollIntensity := 9 }
    (by decide) (by decide) (by decide) (by decide) (by decide) (by decide)

/-- C5, as stated, fails: 261 is not the id of any node of the scenario, yet
EnablePoll(261, 0x25) narrows 261 to 261 mod 256 = 5 and changes the state. -/
theorem C5_counterexample :
    ¬ ∀ (st : State) (N C : Nat), (∀ n ∈ st.nodes, n.nodeId ≠ N) →
        EnablePoll st N C = (st, JsValue.undefined) := by
  intro h
  have h2 := h scenario 261 0x25 (by decide)
  revert h2
  decide

/-- The methods do nothing when the narrowed node id or the narrowed selector
locates nothing. -/
theorem not_found_is_noop (st : State) (N C i x k : Nat) :
    ((∀ n ∈ st.nodes, n.nodeId ≠ toUint8 N) →
      EnablePoll st N C = (st, JsValue.undefined) ∧
      DisablePoll st N C = (st, JsValue.undefined) ∧
      SetPollIntensity st N C i x k = (st, JsValue.undefined) ∧
      IsPolled st N C i x = JsValue.undefined ∧
      GetPollIntensity st N C i x = JsValue.undefined) ∧
    (∀ n, get_node_info st.nodes (toUint8 N) = some n →
      (∀ v ∈ n.values, v.commandClassId ≠ toUint8 C) →
      EnablePoll st N C = (st, JsValue.undefined) ∧
      DisablePoll st N C = (st, JsValue.undefined)) ∧
    (∀ n, get_node_info st.nodes (toUint8 N) = some n →
      (∀ v ∈ n.values,
        ¬ (v.commandClassId = toUint8 C ∧ v.inst = toUint8 i ∧ v.index = toUint8 x)) →
      SetPollIntensity st N C i x k = (st, JsValue.undefined) ∧
      IsPolled st N C i x = JsValue.undefined ∧
      GetPollIntensity st N C i x = JsValue.undefined) := by
  refine ⟨?_, ?_, ?_⟩
  · intro hno
    have hnone := get_node_info_eq_none hno
    simp [EnablePoll, DisablePoll, SetPollIntensity, IsPolled, GetPollIntensity, hnone]
  · intro n hnode hmiss
    constructor
    · simp only [EnablePoll, hnode, EnablePoll_loop_eq]
      rw [modifyFirst_none _ _ _ hmiss, store_self hnode]
    · simp only [DisablePoll, hnode, DisablePoll_loop_eq]
      rw [modifyFirst_none _ _ _ hmiss, store_self hnode]
  · intro n hnode hmiss
    refine ⟨?_, ?_, ?_⟩
    · simp only [SetPollIntensity, hnode, SetPollIntensity_loop_eq]
      rw [modifyFirst_none (exactMatch (toUint8 C) (toUint8 i) (toUint8 x)) _ _ hmiss,
        store_self hnode]
    · simp only [IsPolled, hnode, IsPolled_loop_eq]
      exact answerFirst_none (exactMatch (toUint8 C) (toUint8 i) (toUint8 x)) _ _ _ hmiss
    · simp only [GetPollIntensity, hnode, GetPollIntensity_loop_eq]
      exact answerFirst_none (exactMatch (toUint8 C) (toUint8 i) (toUint8 x)) _ _ _ hmiss

/-- C5, amended: for calls whose nodeId, class, instance and index are below
2^31, the selector is the one reduced modulo 256.  When nodeId mod 256 is the
id of no node, all five methods do nothing: the mutators return the state as
it was with undefined, the queries return undefined.  When the node with id
nodeId mod 256 is located but none of its values has the class mod 256,
EnablePoll and DisablePoll do the same; when none of its values has the class,
instance and index mod 256, SetPollIntensity, IsPolled and GetPollIntensity do
the same. -/
theorem C5_not_found_is_noop (st : State) (N C i x k : Nat)
    (hN : N < 2147483648) (hC : C < 2147483648) (hi : i < 2147483648)
    (hx : x < 2147483648) :
    ((∀ n ∈ st.nodes, n.nodeId ≠ N % 256) →
      EnablePoll st N C = (st, JsValue.undefined) ∧
      DisablePoll st N C = (st, JsValue.undefined) ∧
      SetPollIntensity st N C i x k = (st, JsValue.undefined) ∧
      IsPolled st N C i x = JsValue.undefined ∧
      GetPollIntensity st N C i x = JsValue.undefined) ∧
    (∀ n, get_node_info st.nodes (N % 256) = some n →
      (∀ v ∈ n.values, v.commandClassId ≠ C % 256) →
      EnablePoll st N C = (st, JsValue.undefined) ∧
      DisablePoll st N C = (st, JsValue.undefined)) ∧
    (∀ n, get_node_info st.nodes (N % 256) = some n →
      (∀ v ∈ n.values,
        ¬ (v.commandClassId = C % 256 ∧ v.inst = i % 256 ∧ v.index = x % 256)) →
      SetPollIntensity st N C i x k = (st, JsValue.undefined) ∧
      IsPolled st N C i x = JsValue.undefined ∧
      GetPollIntensity st N C i x = JsValue.undefined) := by
  have h := not_found_is_noop st N C i x k
  rw [toUint8_of_lt_two_pow_31 hN, toUint8_of_lt_two_pow_31 hC, toUint8_of_lt_two_pow_31 hi,
    toUint8_of_lt_two_pow_31 hx] at h
  exact h

/-- Witness of C5 amended on the scenario, with arguments above 255: node
262 mod 256 = 6 is absent; node 261 mod 256 = 5 has no value of class
294 mod 256 = 0x26; node 5 has no value (0x25, 259 mod 256 = 3, 0). -/
theorem C5_not_found_is_noop_witness :
    (EnablePoll scenario 262 0x25 = (scenario, JsValue.undefined) ∧
      GetPollIntensity scenario 262 0x25 1 0 = JsValue.undefined) ∧
    (EnablePoll scenario 261 294 = (scenario, JsValue.undefined) ∧
      DisablePoll scenario 261 294 = (scenario, JsValue.undefined)) ∧
    (SetPollIntensity scenario 261 0x25 259 256 9 = (scenario, JsValue.undefined) ∧
      IsPolled scenario 261 0x25 259 256 = JsValue.undefined ∧
      GetPollIntensity scenario 261 0x25 259 256 = JsValue.undefined) :=
  ⟨let h := (C5_not_found_is_noop scenario 262 0x25 1 0 9
      (by decide) (by decide) (by decide) (by decide)).1 (by decide); ⟨h.1, h.2.2.2.2⟩,
    (C5_not_found_is_noop scenario 261 294 3 0 9
      (by decide) (by decide) (by decide) (by decide)).2.1 node5 (by decide) (by decide),
    (C5_not_found_is_noop scenario 261 0x25 259 256 9
      (by decide) (by decide) (by decide) (by decide)).2.2 node5 (by decide) (by decide)⟩

/-- A located value answers GetPollIntensity with an integer. -/
theorem GetPollIntensity_ne_undefined {st : State} {n : NodeInfo} (N C i x : Nat)
    (hnode : get_node_info st.nodes (toUint8 N) = some n)
    (hex : ∃ v ∈ n.values, exactMatch (toUint8 C) (toUint8 i) (toUint8 x) v) :
    GetPollIntensity st N C i x ≠ JsValue.undefined := by
  obtain ⟨pre, w, post, hsplit, hpre, hw⟩ := exists_first _ n.values hex
  rw [GetPollIntensity_of_get N C i x hnode, GetPollIntensity_loop_eq, hsplit,
    answerFirst_split _ _ _ pre w post hpre hw]
  simp

/-- GetPollIntensity answers with an integer only for a located value. -/
theorem located_of_GetPollIntensity {st : State} (N C i x : Nat)
    (h : GetPollIntensity st N C i x ≠ JsValue.undefined) :
    ∃ n, get_node_info st.nodes (toUint8 N) = some n ∧
      ∃ v ∈ n.values, exactMatch (toUint8 C) (toUint8 i) (toUint8 x) v := by
  cases hnode : get_node_info st.nodes (toUint8 N) with
  | none => simp [GetPollIntensity, hnode] at h
  | some n =>
    refine ⟨n, rfl, ?_⟩
    by_contra hno
    apply h
    rw [GetPollIntensity_of_get N C i x hnode, GetPollIntensity_loop_eq]
    exact answerFirst_none (exactMatch (toUint8 C) (toUint8 i) (toUint8 x)) _ _ _
      (fun w hw hm => hno ⟨w, hw, hm⟩)

/-- SetPollIntensity at one address leaves the answer of GetPollIntensity at
any other address as it was. -/
theorem GetPollIntensity_SetPollIntensity_other (st : State) (N C i x N2 C2 i2 x2 k : Nat)
    (hne : (toUint8 N, toUint8 C, toUint8 i, toUint8 x)
      ≠ (toUint8 N2, toUint8 C2, toUint8 i2, toUint8 x2)) :
    GetPollIntensity (SetPollIntensity st N2 C2 i2 x2 k).1 N C i x
      = GetPollIntensity st N C i x := by
  by_cases hN : toUint8 N = toUint8 N2
  · cases hnode : get_node_info st.nodes (toUint8 N2) with
    | none => simp only [SetPollIntensity, hnode]
    | some n =>
      have hnode1 : get_node_info st.nodes (toUint8 N) = some n := by rw [hN]; exact hnode
      have hget := SetPollIntensity_get N2 C2 i2 x2 k hnode
      rw [← hN] at hget
      rw [GetPollIntensity_of_get N C i x hget, GetPollIntensity_of_get N C i x hnode1]
      simp only [GetPollIntensity_loop_eq, SetPollIntensity_loop_eq]
      apply answerFirst_modifyFirst_disjoint
      · intro v hv2 hv1
        apply hne
        rw [hN, ← hv1.1, ← hv1.2.1, ← hv1.2.2, hv2.1, hv2.2.1, hv2.2.2]
      · intro v
        exact Iff.rfl
  · simp only [GetPollIntensity]
    rw [SetPollIntensity_get_other st N2 C2 i2 x2 k N hN]

/-- The write-back of values that agree with the old ones under a projection
keeps the projection of the whole registry. -/
theorem store_map_values {γ : Type} (proj : ValueDescriptor → γ) {nodes : List NodeInfo}
    {nodeid : Nat} {n : NodeInfo} (vs : List ValueDescriptor)
    (h : get_node_info nodes nodeid = some n) (hvs : vs.map proj = n.values.map proj) :
    (store_node_values nodes nodeid vs).map (fun m => m.values.map proj)
      = nodes.map (fun m => m.values.map proj) := by
  obtain ⟨ns1, ns2, h1, _, h3⟩ := store_split h
  rw [h3 vs]
  conv_rhs => rw [h1]
  simp [hvs]

/-- C8: SetPollIntensity(N, C, i, x, k) keeps the global interval, the node
ids, and for every node the sequence of (commandClassId, instance, index,
isPolled) of its values; it either leaves the state as it was, or rewrites
the pollIntensity of the one value it locates (the first value with the
triple in the node the call locates) and nothing else.  Consequently, for two
located addresses that differ, setting intensity 1 on the first and 3 on the
second, in either order, makes GetPollIntensity return 1 for the first and 3
for the second. -/
theorem C8_SetPollIntensity_frame (st : State) (N C i x k : Nat) :
    (SetPollIntensity st N C i x k).1.pollInterval = st.pollInterval ∧
    (SetPollIntensity st N C i x k).1.nodes.map NodeInfo.nodeId
      = st.nodes.map NodeInfo.nodeId ∧
    (SetPollIntensity st N C i x k).1.nodes.map
        (fun m => m.values.map (fun v => (v.commandClassId, v.inst, v.index, v.isPolled)))
      = st.nodes.map
        (fun m => m.values.map (fun v => (v.commandClassId, v.inst, v.index, v.isPolled))) ∧
    ((SetPollIntensity st N C i x k).1 = st ∨
      ∃ ns1 n ns2 vs1 v vs2,
        st.nodes = ns1 ++ n :: ns2 ∧ (∀ m ∈ ns1, m.nodeId ≠ toUint8 N) ∧
        n.nodeId = toUint8 N ∧
        n.values = vs1 ++ v :: vs2 ∧
        (∀ w ∈ vs1,
          ¬ (w.commandClassId = toUint8 C ∧ w.inst = toUint8 i ∧ w.index = toUint8 x)) ∧
        (v.commandClassId = toUint8 C ∧ v.inst = toUint8 i ∧ v.index = toUint8 x) ∧
        (SetPollIntensity st N C i x k).1 =
          { nodes := ns1 ++ { n with values :=
              vs1 ++ { v with pollIntensity := toUint8 k } :: vs2 } :: ns2,
            pollInterval := st.pollInterval }) ∧
    (∀ N2 C2 i2 x2 : Nat,
      (toUint8 N, toUint8 C, toUint8 i, toUint8 x)
        ≠ (toUint8 N2, toUint8 C2, toUint8 i2, toUint8 x2) →
      (∃ n, get_node_info st.nodes (toUint8 N) = some n ∧ ∃ v ∈ n.values,
        v.commandClassId = toUint8 C ∧ v.inst = toUint8 i ∧ v.index = toUint8 x) →
      (∃ n, get_node_info st.nodes (toUint8 N2) = some n ∧ ∃ v ∈ n.values,
        v.commandClassId = toUint8 C2 ∧ v.inst = toUint8 i2 ∧ v.index = toUint8 x2) →
      GetPollIntensity (SetPollIntensity (SetPollIntensity st N C i x 1).1 N2 C2 i2 x2 3).1
          N C i x = JsValue.integer 1 ∧
        GetPollIntensity (SetPollIntensity (SetPollIntensity st N C i x 1).1 N2 C2 i2 x2 3).1
          N2 C2 i2 x2 = JsValue.integer 3 ∧
        GetPollIntensity (SetPollIntensity (SetPollIntensity st N2 C2 i2 x2 3).1 N C i x 1).1
          N C i x = JsValue.integer 1 ∧
        GetPollIntensity (SetPollIntensity (SetPollIntensity st N2 C2 i2 x2 3).1 N C i x 1).1
          N2 C2 i2 x2 = JsValue.integer 3) := by
  refine ⟨?_, ?_, ?_, ?_, ?_⟩
  · cases hnode : get_node_info st.nodes (toUint8 N) <;> simp only [SetPollIntensity, hnode]
  · cases hnode : get_node_info st.nodes (toUint8 N) with
    | none => simp only [SetPollIntensity, hnode]
    | some n =>
      simp only [SetPollIntensity, hnode]
      exact store_nodeIds _ _ _
  · cases hnode : get_node_info st.nodes (toUint8 N) with
    | none => simp only [SetPollIntensity, hnode]
    | some n =>
      simp only [SetPollIntensity, hnode, SetPollIntensity_loop_eq]
      exact store_map_values _ _ hnode (modifyFirst_map _ _ _ _ (fun _ => rfl))
  · cases hnode : get_node_info st.nodes (toUint8 N) with
    | none => left; simp only [SetPollIntensity, hnode]
    | some n =>
      by_cases hex : ∃ v ∈ n.values, exactMatch (toUint8 C) (toUint8 i) (toUint8 x) v
      · right
        obtain ⟨vs1, v, vs2, hsplit, hpre, hv⟩ := exists_first _ n.values hex
        obtain ⟨ns1, ns2, h1, h2, h3⟩ := store_split hnode
        refine ⟨ns1, n, ns2, vs1, v, vs2, h1, h2, get_node_info_id hnode, hsplit, hpre, hv, ?_⟩
        simp only [SetPollIntensity, hnode, h3, SetPollIntensity_loop_eq, hsplit]
        rw [modifyFirst_split _ _ vs1 v vs2 hpre hv]
        rfl
      · left
        simp only [SetPollIntensity, hnode, SetPollIntensity_loop_eq]
        rw [modifyFirst_none (exactMatch (toUint8 C) (toUint8 i) (toUint8 x)) _ _
          (fun w hw hm => hex ⟨w, hw, hm⟩), store_self hnode]
  · intro N2 C2 i2 x2 hne h1 h2
    obtain ⟨n1, hn1, hv1⟩ := h1
    obtain ⟨n2, hn2, hv2⟩ := h2
    have hfound1 := GetPollIntensity_ne_undefined N C i x hn1 hv1
    have hfound2 := GetPollIntensity_ne_undefined N2 C2 i2 x2 hn2 hv2
    have hsame1 : ∀ s : State, GetPollIntensity s N C i x ≠ JsValue.undefined →
        GetPollIntensity (SetPollIntensity s N C i x 1).1 N C i x = JsValue.integer 1 := by
      intro s hs
      obtain ⟨m, hm, hvm⟩ := located_of_GetPollIntensity N C i x hs
      exact GetPollIntensity_SetPollIntensity_same N C i x 1 hm hvm
    have hsame2 : ∀ s : State, GetPollIntensity s N2 C2 i2 x2 ≠ JsValue.undefined →
        GetPollIntensity (SetPollIntensity s N2 C2 i2 x2 3).1 N2 C2 i2 x2 = JsValue.integer 3 := by
      intro s hs
      obtain ⟨m, hm, hvm⟩ := located_of_GetPollIntensity N2 C2 i2 x2 hs
      exact GetPollIntensity_SetPollIntensity_same N2 C2 i2 x2 3 hm hvm
    refine ⟨?_, ?_, ?_, ?_⟩
    · rw [GetPollIntensity_SetPollIntensity_other _ N C i x N2 C2 i2 x2 3 hne]
      exact hsame1 st hfound1
    · apply hsame2
      rw [GetPollIntensity_SetPollIntensity_other _ N2 C2 i2 x2 N C i x 1 (Ne.symm hne)]
      exact hfound2
    · apply hsame1
      rw [GetPollIntensity_SetPollIntensity_other _ N C i x N2 C2 i2 x2 3 hne]
      exact hfound1
    · rw [GetPollIntensity_SetPollIntensity_other _ N2 C2 i2 x2 N C i x 1 (Ne.symm hne)]
      exact hsame2 st hfound2

/-- Witness of C8: the two values of node 5 in the scenario, (0x25, 1, 0) and
(0x25, 2, 0); intensity 1 on the first and 3 on the second, in both orders. -/
theorem C8_SetPollIntensity_frame_witness :
    GetPollIntensity (SetPollIntensity (SetPollIntensity scenario 5 0x25 1 0 1).1 5 0x25 2 0 3).1
        5 0x25 1 0 = JsValue.integer 1 ∧
      GetPollIntensity (SetPollIntensity (SetPollIntensity scenario 5 0x25 1 0 1).1 5 0x25 2 0 3).1
        5 0x25 2 0 = JsValue.integer 3 ∧
      GetPollIntensity (SetPollIntensity (SetPollIntensity scenario 5 0x25 2 0 3).1 5 0x25 1 0 1).1
        5 0x25 1 0 = JsValue.integer 1 ∧
      GetPollIntensity (SetPollIntensity (SetPollIntensity scenario 5 0x25 2 0 3).1 5 0x25 1 0 1).1
        5 0x25 2 0 = JsValue.integer 3 :=
  (C8_SetPollIntensity_frame scenario 5 0x25 1 0 1).2.2.2.2 5 0x25 2 0 (by decide)
    ⟨node5, by decide, _, List.mem_cons_self _ _, by decide⟩
    ⟨node5, by decide, _, List.mem_cons_of_mem _ (List.mem_cons_self _ _), by decide⟩

theorem EnablePoll_pollInterval (st : State) (N C : Nat) :
    (EnablePoll st N C).1.pollInterval = st.pollInterval := by
  cases hnode : get_node_info st.nodes (toUint8 N) <;> simp only [EnablePoll, hnode]

theorem DisablePoll_pollInterval (st : State) (N C : Nat) :
    (DisablePoll st N C).1.pollInterval = st.pollInterval := by
  cases hnode : get_node_info st.nodes (toUint8 N) <;> simp only [DisablePoll, hnode]

theorem runCalls_pollInterval (cs : List PollCall) (st : State) :
    (runCalls st cs).pollInterval = st.pollInterval := by
  induction cs generalizing st with
  | nil => rfl
  | cons c cs ih =>
    cases c with
    | enable N C => simp only [runCalls, ih, EnablePoll_pollInterval]
    | disable N C => simp only [runCalls, ih, DisablePoll_pollInterval]

/-- The part of the interval round trip that holds: for an interval m up to
255, SetPollInterval(m), then any EnablePoll and DisablePoll calls, then
GetPollInterval() returns m; in general it returns the narrowed m. -/
theorem SetPollInterval_then_GetPollInterval (st : State) (m : Nat) (cs : List PollCall) :
    GetPollInterval (runCalls (SetPollInterval st m).1 cs) = JsValue.integer (toUint8 m) ∧
    (m ≤ 255 →
      GetPollInterval (runCalls (SetPollInterval st m).1 cs) = JsValue.integer m) := by
  have h : GetPollInterval (runCalls (SetPollInterval st m).1 cs)
      = JsValue.integer (toUint8 m) := by
    simp only [GetPollInterval, Manager.GetPollInterval, runCalls_pollInterval, SetPollInterval,
      Manager.SetPollInterval, toUint32]
    congr 1
    have hlt := toUint8_lt m
    omega
  refine ⟨h, fun hm => ?_⟩
  rw [h, toUint8_of_lt (by omega)]

/-- C3 fails on the code for an interval above 255: the interval is narrowed
into a uint8_t before it is stored (line 50), so SetPollInterval(1000) then
GetPollInterval() returns 232, and writing back the 30000 that
GetPollInterval() reads from the scenario makes it 48. -/
theorem C3_SetPollInterval_narrows_interval :
    (∀ st : State, GetPollInterval (SetPollInterval st 1000).1 = JsValue.integer 232) ∧
    GetPollInterval scenario = JsValue.integer 30000 ∧
    GetPollInterval (SetPollInterval scenario 30000).1 = JsValue.integer 48 := by
  refine ⟨fun st => ?_, by decide, by decide⟩
  exact (SetPollInterval_then_GetPollInterval st 1000 []).1

/-- C10, as stated, fails: 4294967301 and 5 agree modulo 256, yet
EnablePoll(4294967301, 37) and EnablePoll(5, 37) differ on the scenario: an
argument of 2^31 or more is narrowed to 0, not to its residue, so the first
call looks for node 0 and leaves the state as it was, and the second polls
the first value of class 37 of node 5. -/
theorem C10_counterexample :
    ¬ ∀ (st : State) (a0 a1 b0 b1 : Nat), a0 % 256 = b0 % 256 → a1 % 256 = b1 % 256 →
        EnablePoll st a0 a1 = EnablePoll st b0 b1 := by
  intro h
  have h2 := h scenario 4294967301 37 5 37 (by decide) (by decide)
  revert h2
  decide

/-- C10, amended: every method depends on its non-negative integer arguments
below 2^31 only through their residues modulo 256: two argument tuples with
all components below 2^31 that agree component-wise modulo 256 give, from any
state, the same result and the same state.  In particular EnablePoll(261,
0x25) acts as EnablePoll(5, 0x25) on the scenario, where no node has id 261,
and turns IsPolled(5, 0x25, 1, 0) from false to true; and SetPollInterval(356)
stores 100. -/
theorem C10_arguments_modulo_256 (st : State) (a0 a1 a2 a3 a4 b0 b1 b2 b3 b4 : Nat)
    (ha0 : a0 < 2147483648) (ha1 : a1 < 2147483648) (ha2 : a2 < 2147483648)
    (ha3 : a3 < 2147483648) (ha4 : a4 < 2147483648)
    (hb0 : b0 < 2147483648) (hb1 : b1 < 2147483648) (hb2 : b2 < 2147483648)
    (hb3 : b3 < 2147483648) (hb4 : b4 < 2147483648)
    (h0 : a0 % 256 = b0 % 256) (h1 : a1 % 256 = b1 % 256) (h2 : a2 % 256 = b2 % 256)
    (h3 : a3 % 256 = b3 % 256) (h4 : a4 % 256 = b4 % 256) :
    SetPollInterval st a0 = SetPollInterval st b0 ∧
    EnablePoll st a0 a1 = EnablePoll st b0 b1 ∧
    DisablePoll st a0 a1 = DisablePoll st b0 b1 ∧
    IsPolled st a0 a1 a2 a3 = IsPolled st b0 b1 b2 b3 ∧
    SetPollIntensity st a0 a1 a2 a3 a4 = SetPollIntensity st b0 b1 b2 b3 b4 ∧
    GetPollIntensity st a0 a1 a2 a3 = GetPollIntensity st b0 b1 b2 b3 ∧
    ((∀ n ∈ scenario.nodes, n.nodeId ≠ 261) ∧
      EnablePoll scenario 261 0x25 = EnablePoll scenario 5 0x25 ∧
      IsPolled scenario 5 0x25 1 0 = JsValue.boolean false ∧
      IsPolled (EnablePoll scenario 261 0x25).1 5 0x25 1 0 = JsValue.boolean true) ∧
    (SetPollInterval st 356).1.pollInterval = 100 := by
  have e0 : toUint8 a0 = toUint8 b0 := by
    rw [toUint8_of_lt_two_pow_31 ha0, toUint8_of_lt_two_pow_31 hb0, h0]
  have e1 : toUint8 a1 = toUint8 b1 := by
    rw [toUint8_of_lt_two_pow_31 ha1, toUint8_of_lt_two_pow_31 hb1, h1]
  have e2 : toUint8 a2 = toUint8 b2 := by
    rw [toUint8_of_lt_two_pow_31 ha2, toUint8_of_lt_two_pow_31 hb2, h2]
  have e3 : toUint8 a3 = toUint8 b3 := by
    rw [toUint8_of_lt_two_pow_31 ha3, toUint8_of_lt_two_pow_31 hb3, h3]
  have e4 : toUint8 a4 = toUint8 b4 := by
    rw [toUint8_of_lt_two_pow_31 ha4, toUint8_of_lt_two_pow_31 hb4, h4]
  refine ⟨?_, ?_, ?_, ?_, ?_, ?_, by decide, ?_⟩
  · simp only [SetPollInterval, e0]
  · simp only [EnablePoll, e0, e1]
  · simp only [DisablePoll, e0, e1]
  · simp only [IsPolled, e0, e1, e2, e3]
  · simp only [SetPollIntensity, e0, e1, e2, e3, e4]
  · simp only [GetPollIntensity, e0, e1, e2, e3]
  · simp only [SetPollInterval, Manager.SetPollInterval]
    decide

/-- Witness of C10 amended: the arguments 261, 293, 257, 256, 259 against 5,
37, 1, 0, 3 on the scenario. -/
theorem C10_arguments_modulo_256_witness :
    EnablePoll scenario 261 293 = EnablePoll scenario 5 37 ∧
      SetPollIntensity scenario 261 293 257 256 259 = SetPollIntensity scenario 5 37 1 0 3 :=
  let h := C10_arguments_modulo_256 scenario 261 293 257 256 259 5 37 1 0 3
    (by decide) (by decide) (by decide) (by decide) (by decide)
    (by decide) (by decide) (by decide) (by decide) (by decide)
    (by decide) (by decide) (by decide) (by decide) (by decide)
  ⟨h.2.1, h.2.2.2.2.1⟩

end OZW
